import Mathlib

/-!
Verification of `pyro/util.py`: validation and diagnostic utilities for a
probabilistic-programming system.  The Python functions are shallowly embedded
as executable Lean definitions; traces are association lists from site names to
site records, tensors are lists of sizes (shapes) or lists of extended-float
values, and raised exceptions are modelled with `Except`.
-/

set_option autoImplicit false

namespace PyroUtil

/-! ## Data model -/

/-- One independence context ("plate") instance on a site's
`cond_indep_stack`: a name, an optionally assigned signed dimension
(counting from the right, negative when set), a size, a counter
distinguishing repeated non-vectorized entries, and a vectorized flag. -/
structure Frame where
  name : String
  dim : Option Int
  size : Nat
  counter : Nat
  vectorized : Bool
  deriving DecidableEq, Repr

/-- The distribution object attached to a site, as queried by this module:
its runtime type name (used to detect `_Subsample` sites), an optional
`event_dim`, and the optional result of its `shape(*args, **kwargs)` query
(`none` models the absence of the attribute). -/
structure Dist where
  typeName : String
  event_dim : Option Nat
  shape : Option (List Nat)
  deriving DecidableEq, Repr

/-- A site record of a trace: the fields of the Python site dict that
`pyro/util.py` reads. -/
structure Node where
  type : String
  name : String
  fn : Dist
  is_observed : Bool
  infer_is_auxiliary : Bool
  infer_enumerate : Bool
  infer_enumerate_dim : Option Int
  cond_indep_stack : List Frame
  log_prob_shape : List Nat
  deriving DecidableEq, Repr

/-- A trace: an ordered mapping from site name to site record. -/
structure Trace where
  nodes : List (String × Node)
  deriving DecidableEq, Repr

/-- `trace.nodes[name]`: first binding of `name` in the ordered mapping. -/
def lookupNode (t : Trace) (n : String) : Option Node :=
  (t.nodes.find? (fun p => p.1 == n)).map (fun p => p.2)

/-- Errors raised (as `ValueError`, `AssertionError` or `KeyError`) by the
checks of `pyro/util.py`, with the data interpolated into their messages. -/
inductive PyroErr where
  | dimCollision (site : String) (frameName : String) (dim : Int)
  | assertFailed (site : String)
  | plateStackOverflow (site : String) (minNesting : Nat)
  | invalidLogProbShape (site : String) (expected : List Int) (actual : List Nat)
  | eventDimMismatch (site : String) (modelDim guideDim : Nat)
  | shapeMismatch (site : String) (modelShape guideShape : List Nat)
  | siteDimsDisagree (site : String) (shape1 shape2 : List Nat)
  | keyError (key : String)
  deriving DecidableEq, Repr

/-- Whether an `Except` result is a success. -/
def isOkE (r : Except PyroErr Unit) : Bool :=
  match r with
  | .ok _ => true
  | .error _ => false

/-! ## Numeric Guard: `torch_isnan` / `torch_isinf`

Scalar values and tensor elements are modelled by an extended-float type
with IEEE-like equality: `nan` is not equal to anything, including itself. -/

/-- A Python/torch floating-point value: NaN, plus or minus infinity, or an
ordinary finite value (modelled by a rational). -/
inductive PyFloat where
  | nan
  | inf
  | ninf
  | num (q : ℚ)
  deriving DecidableEq, Repr

/-- IEEE-style equality on `PyFloat`: `nan` compares unequal to everything,
including itself; infinities and finite values compare structurally. -/
def feq : PyFloat → PyFloat → Bool
  | .nan, _ => false
  | _, .nan => false
  | .inf, .inf => true
  | .inf, _ => false
  | .ninf, .ninf => true
  | .ninf, _ => false
  | .num a, .num b => a == b
  | .num _, _ => false

/-- The elementwise `torch.isnan` predicate of the tensor runtime. -/
def isnanElem : PyFloat → Bool
  | .nan => true
  | _ => false

/-- An argument to `torch_isnan`/`torch_isinf`: either a Python number
(`isinstance(x, numbers.Number)`) or a tensor, modelled as the list of its
elements. -/
inductive TValue where
  | scalar (x : PyFloat)
  | tensor (elems : List PyFloat)
  deriving DecidableEq, Repr

/-- `torch_isnan(x)`: for a number, `x != x`; for a tensor,
`torch.isnan(x).any()`. -/
def torch_isnan : TValue → Bool
  | .scalar x => !(feq x x)
  | .tensor t => t.any (fun e => isnanElem e)

/-- `torch_isinf(x)`: for a number, `x == float('inf') or x == -float('inf')`;
for a tensor, `(x == float('inf')).any() or (x == -float('inf')).any()`. -/
def torch_isinf : TValue → Bool
  | .scalar x => feq x .inf || feq x .ninf
  | .tensor t => t.any (fun e => feq e .inf) || t.any (fun e => feq e .ninf)

/-! ## Trace Matcher: `check_traces_match` -/

/-- Set-semantic membership for name lists. -/
def subS (a b : List String) : Bool := a.all (fun x => b.contains x)

/-- Set equality of name lists (the Python sets compare by extension). -/
def setEqS (a b : List String) : Bool := subS a b && subS b a

/-- The set of sample-site names of a trace, in trace order:
`set(name for name, site in trace.nodes.items() if site["type"] == "sample")`. -/
def sampleNames (t : Trace) : List String :=
  t.nodes.filterMap (fun p => if p.2.type == "sample" then some p.1 else none)

/-- Non-fatal warnings emitted by `check_traces_match`. -/
inductive CTMWarning where
  | modelVarsChanged (vars1 vars2 : List String)
  deriving DecidableEq, Repr

/-- The shape-comparison loop of `check_traces_match`: `for name in vars1`,
look up the site in both traces (`trace.nodes[name]` raises `KeyError` when
absent), and if both distribution objects expose `shape`, compare the computed
shapes exactly, raising on the first disagreement. -/
def ctmLoop (t1 t2 : Trace) : List String → Except PyroErr Unit
  | [] => .ok ()
  | n :: rest =>
    match lookupNode t1 n, lookupNode t2 n with
    | some s1, some s2 =>
      match s1.fn.shape, s2.fn.shape with
      | some sh1, some sh2 =>
        if sh1 = sh2 then ctmLoop t1 t2 rest
        else .error (.siteDimsDisagree n sh1 sh2)
      | _, _ => ctmLoop t1 t2 rest
    | none, _ => .error (.keyError n)
    | _, none => .error (.keyError n)

/-- `check_traces_match(trace1, trace2)`: warn (non-fatally) when the two
sample-site name sets differ, then run the shape-comparison loop over
`vars1`.  Result: the emitted warnings and the raise/success outcome. -/
def check_traces_match (t1 t2 : Trace) : List CTMWarning × Except PyroErr Unit :=
  let vars1 := sampleNames t1
  let vars2 := sampleNames t2
  let ws := if setEqS vars1 vars2 then [] else [CTMWarning.modelVarsChanged vars1 vars2]
  (ws, ctmLoop t1 t2 vars1)

/-! ## Shared shape machinery -/

/-- The caller-supplied `max_plate_nesting` bound: a non-negative integer or
`float('inf')`. -/
inductive PlateNesting where
  | fin (n : Nat)
  | inf
  deriving DecidableEq, Repr

/-- `k > max_plate_nesting` (always false against infinity). -/
def natGtPN (k : Nat) (mpn : PlateNesting) : Bool :=
  match mpn with
  | .fin m => m < k
  | .inf => false

/-- `if max_plate_nesting < len(shape): shape = shape[len(shape) - max_plate_nesting:]`:
truncate a shape to its rightmost `max_plate_nesting` entries when longer. -/
def truncActual (mpn : PlateNesting) (l : List Nat) : List Nat :=
  match mpn with
  | .inf => l
  | .fin m => if m < l.length then l.drop (l.length - m) else l

/-- `zip_longest` of two lists already reversed, with per-side fill values:
the shorter list is padded on its tail with its fill value. -/
def zipFill {α β : Type} (fa : α) (fb : β) : List α → List β → List (α × β)
  | [], bs => bs.map (fun b => (fa, b))
  | a :: as, [] => (a, fb) :: zipFill fa fb as []
  | a :: as, b :: bs => (a, b) :: zipFill fa fb as bs

/-- `zip_longest(reversed(as), reversed(bs), fillvalue)`: pair the two lists
from their right edges, padding the shorter on the left with the fill. -/
def zipLongestRev {α β : Type} (as : List α) (bs : List β) (fa : α) (fb : β) : List (α × β) :=
  zipFill fa fb as.reverse bs.reverse

/-! ## `check_model_guide_match`: per-site event-dim and shape checks -/

/-- Lines 196-212 of `check_model_guide_match` for one site: if both
distributions expose `shape`, compute both shapes; pass if exactly equal;
otherwise truncate each to its rightmost `max_plate_nesting` entries, pass if
equal; otherwise compare from the right with implicit-1 padding and raise on
the first differing pair. -/
def cmgmShapeCheck (name : String) (model_shape guide_shape : List Nat)
    (mpn : PlateNesting) : Except PyroErr Unit :=
  if model_shape = guide_shape then .ok ()
  else
    let ms := truncActual mpn model_shape
    let gs := truncActual mpn guide_shape
    if ms = gs then .ok ()
    else if (zipLongestRev ms gs 1 1).any (fun p => p.1 != p.2) then
      .error (.shapeMismatch name ms gs)
    else .ok ()

/-- The `hasattr(fn, "shape")` guard around `cmgmShapeCheck`: skip when either
distribution does not expose a shape query. -/
def cmgmShapePart (name : String) (mfn gfn : Dist) (mpn : PlateNesting) :
    Except PyroErr Unit :=
  match mfn.shape, gfn.shape with
  | some ms, some gs => cmgmShapeCheck name ms gs mpn
  | _, _ => .ok ()

/-- The body of `check_model_guide_match`'s per-site loop (lines 191-212):
when both distributions expose `event_dim`, raise on disagreement; then run
the shape comparison. -/
def cmgm_site_check (name : String) (mfn gfn : Dist) (mpn : PlateNesting) :
    Except PyroErr Unit :=
  match mfn.event_dim, gfn.event_dim with
  | some em, some eg =>
    if em ≠ eg then .error (.eventDimMismatch name em eg)
    else cmgmShapePart name mfn gfn mpn
  | _, _ => cmgmShapePart name mfn gfn mpn

/-- Set intersection on name lists, in left-operand order. -/
def interS (a b : List String) : List String := a.filter (fun x => b.contains x)

/-- Set difference on name lists, in left-operand order. -/
def diffS (a b : List String) : List String := a.filter (fun x => !(b.contains x))

/-- Non-fatal warnings emitted by `check_model_guide_match`. -/
inductive MGWarning where
  | auxInModel (names : List String)
  | nonAuxInGuide (names : List String)
  | inModelNotGuide (names : List String)
  | plateOnlyInGuide (names : List String)
  deriving DecidableEq, Repr

/-- The `for name in model_vars & guide_vars` loop of
`check_model_guide_match`, applying `cmgm_site_check` at each shared site. -/
def mgLoop (mt gt : Trace) (mpn : PlateNesting) : List String → Except PyroErr Unit
  | [] => .ok ()
  | n :: rest =>
    match lookupNode mt n, lookupNode gt n with
    | some ms, some gs =>
      match cmgm_site_check n ms.fn gs.fn mpn with
      | .ok _ => mgLoop mt gt mpn rest
      | .error e => .error e
    | _, _ => .error (.keyError n)

/-- Guide sample-site names whose distribution is not a `_Subsample`. -/
def guideVars (gt : Trace) : List String :=
  gt.nodes.filterMap (fun p =>
    if p.2.type == "sample" && p.2.fn.typeName != "_Subsample" then some p.1 else none)

/-- Guide sample-site names marked `infer={'is_auxiliary': True}`. -/
def auxVars (gt : Trace) : List String :=
  gt.nodes.filterMap (fun p =>
    if p.2.type == "sample" && p.2.infer_is_auxiliary then some p.1 else none)

/-- Unobserved model sample-site names whose distribution is not a
`_Subsample`. -/
def modelVars (mt : Trace) : List String :=
  mt.nodes.filterMap (fun p =>
    if p.2.type == "sample" && !p.2.is_observed && p.2.fn.typeName != "_Subsample"
    then some p.1 else none)

/-- Unobserved, non-subsample model sites carrying a non-null
`_enumerate_dim` hint and absent from the guide. -/
def enumVars (mt gt : Trace) : List String :=
  mt.nodes.filterMap (fun p =>
    if p.2.type == "sample" && !p.2.is_observed && p.2.fn.typeName != "_Subsample"
       && p.2.infer_enumerate_dim.isSome && !((guideVars gt).contains p.1)
    then some p.1 else none)

/-- Unobserved model `_Subsample` sites (plate bookkeeping sites). -/
def modelSubsampleVars (mt : Trace) : List String :=
  mt.nodes.filterMap (fun p =>
    if p.2.type == "sample" && !p.2.is_observed && p.2.fn.typeName == "_Subsample"
    then some p.1 else none)

/-- Guide `_Subsample` sites. -/
def guideSubsampleVars (gt : Trace) : List String :=
  gt.nodes.filterMap (fun p =>
    if p.2.type == "sample" && p.2.fn.typeName == "_Subsample" then some p.1 else none)

/-- `check_model_guide_match(model_trace, guide_trace, max_plate_nesting)`:
emit the three variable-set warnings, run the per-site event-dim/shape loop
over `model_vars & guide_vars`, and warn about guide-only plate sites.
Result: the emitted warnings and the raise/success outcome. -/
def check_model_guide_match (mt gt : Trace) (mpn : PlateNesting) :
    List MGWarning × Except PyroErr Unit :=
  let gv := guideVars gt
  let av := auxVars gt
  let mv := modelVars mt
  let ev := enumVars mt gt
  let w1 := if (interS av mv).isEmpty then [] else [MGWarning.auxInModel (interS av mv)]
  let w2 := if subS gv (mv ++ av) then [] else [MGWarning.nonAuxInGuide (diffS (diffS gv av) mv)]
  let w3 := if subS mv (gv ++ ev) then [] else [MGWarning.inModelNotGuide (diffS (diffS mv gv) ev)]
  let res := mgLoop mt gt mpn (interS mv gv)
  let msub := modelSubsampleVars mt
  let gsub := guideSubsampleVars gt
  let w4 := if subS gsub msub then [] else [MGWarning.plateOnlyInGuide (diffS gsub msub)]
  (w1 ++ w2 ++ w3 ++ w4, res)

/-! ## Shape Reconciler: `check_site_shape` -/

/-- Read the entry of `l` at position `p` counting from the right edge
(`p = 1` is the last element); positions outside the list are `none`
(unassigned). -/
def getFR (l : List (Option Nat)) (p : Nat) : Option Nat :=
  if p ≤ l.length then l.getD (l.length - p) none else none

/-- Write `some v` at position `p` from the right (`l[-p] = v` in Python,
assuming `p ≤ len(l)`). -/
def setFR (l : List (Option Nat)) (p : Nat) (v : Nat) : List (Option Nat) :=
  l.set (l.length - p) (some v)

/-- Left-pad `l` with `None` placeholders until its length is at least `p`:
`[None] * (p - len(l)) + l`. -/
def padTo (l : List (Option Nat)) (p : Nat) : List (Option Nat) :=
  if l.length < p then List.replicate (p - l.length) none ++ l else l

/-- The expected-shape accumulation loop of `check_site_shape` (lines
229-240): scan the `cond_indep_stack`; for each frame with an assigned `dim`
(asserted negative), left-pad the working list to cover that position and
write the frame's `size` there, raising a dim-collision error when the
position is already assigned. -/
def buildExpected (siteName : String) :
    List (Option Nat) → List Frame → Except PyroErr (List (Option Nat))
  | acc, [] => .ok acc
  | acc, f :: rest =>
    match f.dim with
    | none => buildExpected siteName acc rest
    | some d =>
      if d < 0 then
        let p := (-d).toNat
        let acc1 := padTo acc p
        if getFR acc1 p ≠ none then .error (.dimCollision siteName f.name d)
        else buildExpected siteName (setFR acc1 p f.size) rest
      else .error (.assertFailed siteName)

/-- `[-1 if e is None else e for e in expected_shape]`: replace unassigned
positions by the wildcard `-1`. -/
def expectedToInt (l : List (Option Nat)) : List Int :=
  l.map (fun e =>
    match e with
    | none => -1
    | some s => (s : Int))

/-- Whether one aligned (actual, expected) pair violates the shape check:
`expected_size != -1 and expected_size != actual_size`. -/
def shapeViolation (a : Nat) (e : Int) : Bool :=
  e != -1 && e != (a : Int)

/-- The final comparison loop of `check_site_shape` (lines 254-262): align
the actual and expected shapes from the right with implicit-1 padding, and
raise an invalid-log_prob-shape error (listing both shapes) when any pair
violates the check. -/
def comparePairs (siteName : String) (expected : List Int) (actual : List Nat) :
    Except PyroErr Unit :=
  if (zipLongestRev actual expected 1 1).any (fun p => shapeViolation p.1 p.2) then
    .error (.invalidLogProbShape siteName expected actual)
  else .ok ()

/-- `check_site_shape(site, max_plate_nesting)`: build the expected shape
from the `cond_indep_stack` (possibly raising dim-collision), raise
plate-stack-overflow when it is longer than `max_plate_nesting`, truncate the
actual `log_prob` shape to its rightmost `max_plate_nesting` entries, and
compare the two from the right. -/
def check_site_shape (site : Node) (mpn : PlateNesting) : Except PyroErr Unit :=
  match buildExpected site.name [] site.cond_indep_stack with
  | .error e => .error e
  | .ok es =>
    let expected := expectedToInt es
    if natGtPN expected.length mpn then
      .error (.plateStackOverflow site.name expected.length)
    else comparePairs site.name expected (truncActual mpn site.log_prob_shape)

/-! ## Enumeration Dependency Checker: `check_traceenum_requirements` -/

/-- Collapse an association list to Python-dict semantics: one entry per key,
keeping the value of the key's last occurrence. -/
def dictOf : List (String × Nat) → List (String × Nat)
  | [] => []
  | (k, v) :: rest =>
    if (rest.find? (fun p => p.1 == k)).isSome then dictOf rest
    else (k, v) :: dictOf rest

/-- `_are_independent(counters1, counters2)`: true when the two counter
snapshots share a named sequential frame with differing counter values. -/
def _are_independent (counters1 counters2 : List (String × Nat)) : Bool :=
  counters1.any (fun p =>
    match counters2.find? (fun q => q.1 == p.1) with
    | some q => q.2 != p.2
    | none => false)

/-- Frame membership with set semantics. -/
def memF (x : Frame) (l : List Frame) : Bool := l.any (fun y => y == x)

/-- Frozenset inclusion on frame lists. -/
def subF (a b : List Frame) : Bool := a.all (fun x => memF x b)

/-- Frozenset strict inclusion (`<` on Python frozensets). -/
def ssubF (a b : List Frame) : Bool := subF a b && !(subF b a)

/-- Frozenset equality on frame lists. -/
def seteqF (a b : List Frame) : Bool := subF a b && subF b a

/-- Frozenset difference `a - b`. -/
def diffF (a b : List Frame) : List Frame := a.filter (fun x => !(memF x b))

/-- Deduplicate a frame list (frozenset construction), keeping one
representative per element. -/
def dedupF : List Frame → List Frame
  | [] => []
  | x :: rest => if memF x rest then dedupF rest else x :: dedupF rest

/-- Boolean string comparison used to model Python's `sorted` on names. -/
def strLE (a b : String) : Bool := decide (a ≤ b)

/-- Insert a name into a `strLE`-sorted list. -/
def insertSorted (a : String) : List String → List String
  | [] => [a]
  | b :: rest => if strLE a b then a :: b :: rest else b :: insertSorted a rest

/-- `sorted(...)` on a list of names. -/
def sortStr : List String → List String
  | [] => []
  | a :: rest => insertSorted a (sortStr rest)

/-- `{f.name: f.counter for f in site["cond_indep_stack"] if not f.vectorized}`:
the site's non-vectorized counter snapshot. -/
def siteIrangeCounter (s : Node) : List (String × Nat) :=
  dictOf (s.cond_indep_stack.filterMap (fun f =>
    if f.vectorized then none else some (f.name, f.counter)))

/-- `frozenset(f for f in site["cond_indep_stack"] if f.vectorized)`: the
site's vectorized-frame context. -/
def siteContext (s : Node) : List Frame :=
  dedupF (s.cond_indep_stack.filter (fun f => f.vectorized))

/-- The checker's per-trace mutable state: `irange_counters` (site name to
counter snapshot) and `enumerated_contexts` (vectorized context to the
enumerated site names recorded under it). -/
structure TEState where
  counters : List (String × List (String × Nat))
  enumCtxs : List (List Frame × List String)

/-- `irange_counters[n]` (names recorded in `counters`; `[]` as the
out-of-domain junk value, never reached on recorded names). -/
def countersOf (st : TEState) (n : String) : List (String × Nat) :=
  ((st.counters.find? (fun p => p.1 == n)).map (fun p => p.2)).getD []

/-- One warning of `check_traceenum_requirements`: the trace role, the
current site, the sorted enumerated sites it should have preceded, and the
sorted names of the plates whose independence is at risk. -/
structure TEWarning where
  role : String
  site : String
  shouldPrecede : List String
  plates : List String
  deriving DecidableEq, Repr

/-- The warning scan of `check_traceenum_requirements` at one sample site:
for every recorded enumerated context strictly containing the site's
context, keep the recorded names not independent of the site's counter
snapshot, and emit a warning when any remain. -/
def stepWarnings (role : String) (st : TEState) (name : String) (s : Node) :
    List TEWarning :=
  let ic := siteIrangeCounter s
  let ctx := siteContext s
  st.enumCtxs.filterMap (fun p =>
    if ssubF ctx p.1 then
      let ns := sortStr (p.2.filter (fun n => !(_are_independent ic (countersOf st n))))
      if ns.isEmpty then none
      else some { role := role, site := name, shouldPrecede := ns,
                  plates := sortStr ((diffF p.1 ctx).map (fun f => f.name)) }
    else none)

/-- `enumerated_contexts[context].add(name)`: add a name under a context key
compared with frozenset equality, creating the entry when absent. -/
def addEnumCtx : List (List Frame × List String) → List Frame → String →
    List (List Frame × List String)
  | [], ctx, n => [(ctx, [n])]
  | p :: rest, ctx, n =>
    if seteqF p.1 ctx then (p.1, if p.2.contains n then p.2 else p.2 ++ [n]) :: rest
    else p :: addEnumCtx rest ctx n

/-- One iteration of the checker's site loop: skip non-sample sites; emit the
warnings for the current site, then record its counter snapshot and, when it
is an enumerated site, add it under its vectorized context. -/
def teStep (role : String) (enumSites : List String) (st : TEState)
    (name : String) (s : Node) : TEState × List TEWarning :=
  if s.type == "sample" then
    let ws := stepWarnings role st name s
    let ctxs := if enumSites.contains name then addEnumCtx st.enumCtxs (siteContext s) name
                else st.enumCtxs
    ({ counters := st.counters ++ [(name, siteIrangeCounter s)], enumCtxs := ctxs }, ws)
  else (st, [])

/-- Process a trace's sites in recorded order, threading the checker state
and collecting all warnings. -/
def teProcess (role : String) (enumSites : List String) :
    TEState → List (String × Node) → List TEWarning
  | _, [] => []
  | st, (n, s) :: rest =>
    (teStep role enumSites st n s).2 ++
      teProcess role enumSites (teStep role enumSites st n s).1 rest

/-- Guide sample sites with a truthy `infer["enumerate"]` hint. -/
def enumeratedSites (gt : Trace) : List String :=
  gt.nodes.filterMap (fun p =>
    if p.2.type == "sample" && p.2.infer_enumerate then some p.1 else none)

/-- `check_traceenum_requirements(model_trace, guide_trace)`: collect the
guide's enumerated sites, then run the ordering scan independently over the
model trace and the guide trace, returning every warning emitted. -/
def check_traceenum_requirements (mt gt : Trace) : List TEWarning :=
  let es := enumeratedSites gt
  teProcess "model" es { counters := [], enumCtxs := [] } mt.nodes ++
    teProcess "guide" es { counters := [], enumCtxs := [] } gt.nodes

/-! ## `optional` context manager

A context manager is modelled by the event traces of its enter and exit
phases; running a body inside it concatenates enter, body and exit. -/

/-- A context manager, modelled by the observable events of its `__enter__`
and `__exit__` phases. -/
structure ContextManager (ε : Type) where
  enter : List ε
  exit : List ε

/-- `with context_manager: body` as an event trace. -/
def withCM {ε : Type} (cm : ContextManager ε) (body : List ε) : List ε :=
  cm.enter ++ body ++ cm.exit

/-- `optional(context_manager, condition)` wrapping a body that yields once:
when `condition` holds the body runs inside the context manager, otherwise it
runs bare. -/
def optional {ε : Type} (cm : ContextManager ε) (condition : Bool)
    (body : List ε) : List ε :=
  if condition then withCM cm body else body

/-! ## Error-classification predicates -/

/-- Whether a result is a dim-collision error naming the given site. -/
def isDimCollisionAt (sn : String) : Except PyroErr Unit → Bool
  | .error (.dimCollision s _ _) => s == sn
  | _ => false

/-- Whether a result is a plate-stack-overflow error. -/
def isOverflowErr : Except PyroErr Unit → Bool
  | .error (.plateStackOverflow _ _) => true
  | _ => false

/-- Whether a result is a model/guide shape-mismatch error. -/
def isShapeMismatchErr : Except PyroErr Unit → Bool
  | .error (.shapeMismatch _ _ _) => true
  | _ => false

/-- Whether a result is an event-dim-mismatch error. -/
def isEventDimErr : Except PyroErr Unit → Bool
  | .error (.eventDimMismatch _ _ _) => true
  | _ => false

/-! ## Concrete inputs for the claims -/

/-- A distribution exposing neither `event_dim` nor `shape`. -/
def plainDist : Dist := { typeName := "Normal", event_dim := none, shape := none }

/-- A sample site template with empty stack and shape. -/
def baseNode : Node :=
  { type := "sample", name := "x", fn := plainDist, is_observed := false,
    infer_is_auxiliary := false, infer_enumerate := false,
    infer_enumerate_dim := none, cond_indep_stack := [], log_prob_shape := [] }

/-- C1's site: no frames, `log_prob` shape `(3,)`. -/
def siteNoFrames : Node := { baseNode with log_prob_shape := [3] }

/-- Frame `{dim=-2, size=5}` of C3. -/
def frameA : Frame := { name := "a", dim := some (-2), size := 5, counter := 0, vectorized := true }

/-- Frame `{dim=-1, size=3}` of C3. -/
def frameB : Frame := { name := "b", dim := some (-1), size := 3, counter := 0, vectorized := true }

/-- C3's passing site: stack `[{dim=-2,size=5},{dim=-1,size=3}]`,
`log_prob` shape `(5,3)`. -/
def siteC3ok : Node :=
  { baseNode with cond_indep_stack := [frameA, frameB], log_prob_shape := [5, 3] }

/-- C3's failing site: same stack, `log_prob` shape `(5,4)`. -/
def siteC3bad : Node :=
  { baseNode with cond_indep_stack := [frameA, frameB], log_prob_shape := [5, 4] }

/-- A second frame also claiming `dim=-1`, for C4. -/
def frameB2 : Frame := { name := "b2", dim := some (-1), size := 7, counter := 0, vectorized := true }

/-- C4's site: two frames claiming `dim=-1`. -/
def siteCollide : Node :=
  { baseNode with cond_indep_stack := [frameB, frameB2], log_prob_shape := [3] }

/-- C5's site: one frame at `dim=-1`, checked with `max_plate_nesting=0`. -/
def siteOverflow : Node :=
  { baseNode with cond_indep_stack := [frameB], log_prob_shape := [3] }

/-- C2's first trace: sample sites `a` and `b`. -/
def traceAB : Trace :=
  { nodes := [("a", { baseNode with name := "a" }), ("b", { baseNode with name := "b" })] }

/-- C2's second trace: sample sites `a` and `c`. -/
def traceAC : Trace :=
  { nodes := [("a", { baseNode with name := "a" }), ("c", { baseNode with name := "c" })] }

/-- The vectorized plate frame of C9's example. -/
def framePlateA : Frame :=
  { name := "plateA", dim := some (-1), size := 2, counter := 0, vectorized := true }

/-- C9's guide trace: an enumerated site `e` inside `plateA`, then a site `f`
outside every plate, with identical (empty) non-vectorized counters. -/
def guideEF : Trace :=
  { nodes :=
      [("e", { baseNode with name := "e", infer_enumerate := true, cond_indep_stack := [framePlateA] }),
       ("f", { baseNode with name := "f" })] }

/-- The empty trace. -/
def emptyTrace : Trace := { nodes := [] }

/-- The assigned plate dimensions of a stack, in stack order. -/
def assignedDims (fs : List Frame) : List Int := fs.filterMap Frame.dim

/-- All assigned dims of a stack are negative (the `assert f.dim < 0`
precondition of `check_site_shape`). -/
def negDims (fs : List Frame) : Bool :=
  fs.all (fun f =>
    match f.dim with
    | some d => decide (d < 0)
    | none => true)

/-! ## Supporting lemmas -/

theorem zipFill_nil_right {α β : Type} (fa : α) (fb : β) (l : List α) :
    zipFill fa fb l [] = l.map (fun a => (a, fb)) := by
  induction l with
  | nil => rfl
  | cons a as ih => simp [zipFill, ih]

theorem natGtPN_zero (mpn : PlateNesting) : natGtPN 0 mpn = false := by
  cases mpn <;> simp [natGtPN]

theorem comparePairs_ok_iff (sn : String) (expected : List Int) (actual : List Nat) :
    comparePairs sn expected actual = .ok () ↔
      (zipLongestRev actual expected 1 1).any (fun p => shapeViolation p.1 p.2) = false := by
  unfold comparePairs
  split
  · simp_all
  · simp_all

theorem isOverflowErr_comparePairs (sn : String) (expected : List Int) (actual : List Nat) :
    isOverflowErr (comparePairs sn expected actual) = false := by
  unfold comparePairs
  split <;> rfl

theorem shapeViolation_one (a : Nat) : shapeViolation a 1 = !(a == 1) := by
  have h1 : ((1 : Int) = (a : Int)) ↔ a = 1 := by omega
  by_cases h : a = 1
  · simp [shapeViolation, bne, h]
  · simp [shapeViolation, bne, h1, h]

theorem any_bang_eq {α : Type} (p : α → Bool) (l : List α) :
    (l.any fun a => !(p a)) = !(l.all p) := by
  induction l with
  | nil => rfl
  | cons a as ih => simp [List.any_cons, List.all_cons, ih, Bool.not_and]

theorem any_map_fn {α β : Type} (f : α → β) (p : β → Bool) (l : List α) :
    (l.map f).any p = l.any fun a => p (f a) := by
  induction l with
  | nil => rfl
  | cons a as ih => simp [List.any_cons, ih]

theorem any_violation_nil (l : List Nat) :
    ((zipLongestRev l [] 1 1).any fun p => shapeViolation p.1 p.2) =
      !(l.all fun a => a == 1) := by
  rw [zipLongestRev, List.reverse_nil, zipFill_nil_right, any_map_fn]
  have hfun : (fun a : Nat => shapeViolation (a, (1 : Int)).1 (a, (1 : Int)).2)
      = fun a => !(a == 1) := by
    funext a
    exact shapeViolation_one a
  rw [hfun, List.any_reverse, any_bang_eq]

/-! ## Claims -/

/-- C1 (counterexample): at a site with no frames and `log_prob` shape
`(3,)`, `check_site_shape` with `max_plate_nesting=1` does **not** pass: it
raises an invalid-log_prob-shape error, because the uncovered actual entry is
compared against the implicit fill value `1`, not a wildcard. -/
theorem claim1_cex : check_site_shape siteNoFrames (.fin 1) =
    .error (.invalidLogProbShape "x" [] [3]) := rfl

/-- C1 (amended): for a site whose `cond_indep_stack` contributes no expected
dimensions, `check_site_shape` succeeds iff every entry of the actual shape
within `max_plate_nesting` of the right edge equals 1 — entries of the actual
shape not covered by the expected shape are compared against an implicit
size 1, and only entries truncated away (left of `max_plate_nesting`) are
exempt. -/
theorem claim1_thm (site : Node) (mpn : PlateNesting)
    (h : site.cond_indep_stack = []) :
    check_site_shape site mpn = .ok () ↔
      (truncActual mpn site.log_prob_shape).all (fun a => a == 1) = true := by
  have hb : buildExpected site.name [] site.cond_indep_stack = .ok [] := by
    rw [h]; rfl
  simp only [check_site_shape, hb]
  have h0 : expectedToInt [] = [] := rfl
  rw [h0, List.length_nil, natGtPN_zero]
  simp only [Bool.false_eq_true, if_false]
  rw [comparePairs_ok_iff, any_violation_nil, Bool.not_eq_false']

/-- C1 (witness for the amended theorem): the same no-frame site with
`log_prob` shape `(3,)` passes with `max_plate_nesting=0`, where the actual
shape is entirely truncated away. -/
theorem claim1_w : check_site_shape siteNoFrames (.fin 0) = .ok () :=
  (claim1_thm siteNoFrames (.fin 0) rfl).mpr (by decide)

/-- C2 (counterexample): for trace1 with sample sites `{a,b}` and trace2 with
`{a,c}`, `check_traces_match` does warn listing both sets, but it **raises**:
the shape loop iterates over trace1's names and `trace2.nodes["b"]` is a
`KeyError`. -/
theorem claim2_cex :
    (check_traces_match traceAB traceAC).1 =
        [.modelVarsChanged ["a", "b"] ["a", "c"]]
      ∧ (check_traces_match traceAB traceAC).2 = .error (.keyError "b") :=
  ⟨rfl, rfl⟩

theorem ctmLoop_missing (t1 t2 : Trace) :
    ∀ l : List String, (∃ n ∈ l, lookupNode t2 n = none) →
      isOkE (ctmLoop t1 t2 l) = false := by
  intro l
  induction l with
  | nil => rintro ⟨n, hn, _⟩; simp at hn
  | cons n0 rest ih =>
    rintro ⟨n, hn, hmiss⟩
    cases h1 : lookupNode t1 n0 with
    | none => simp [ctmLoop, h1, isOkE]
    | some s1 =>
      cases h2 : lookupNode t2 n0 with
      | none => simp [ctmLoop, h1, h2, isOkE]
      | some s2 =>
        have hnr : n ∈ rest := by
          rcases List.mem_cons.mp hn with rfl | hr
          · rw [hmiss] at h2; cases h2
          · exact hr
        have hrec := ih ⟨n, hnr, hmiss⟩
        cases hs1 : s1.fn.shape with
        | none => simpa [ctmLoop, h1, h2, hs1] using hrec
        | some sh1 =>
          cases hs2 : s2.fn.shape with
          | none => simpa [ctmLoop, h1, h2, hs1, hs2] using hrec
          | some sh2 =>
            by_cases he : sh1 = sh2
            · simpa [ctmLoop, h1, h2, hs1, hs2, he] using hrec
            · simp [ctmLoop, h1, h2, hs1, hs2, he, isOkE]

/-- C2 (amended): `check_traces_match` warns (non-fatally, listing both name
sets) exactly when the sample-site name sets differ, but the shape loop
iterates over **trace1's** sample names and looks each up in trace2, so the
call raises whenever trace1 has a sample site absent from trace2; shape
comparison is skipped only for extra trace2-only names. -/
theorem claim2_thm (t1 t2 : Trace) :
    ((check_traces_match t1 t2).1 =
        if setEqS (sampleNames t1) (sampleNames t2) then []
        else [CTMWarning.modelVarsChanged (sampleNames t1) (sampleNames t2)])
      ∧ ((∃ n ∈ sampleNames t1, lookupNode t2 n = none) →
          isOkE (check_traces_match t1 t2).2 = false) := by
  constructor
  · rfl
  · intro hex
    exact ctmLoop_missing t1 t2 (sampleNames t1) hex

/-- C2 (witness for the amended theorem): applied to the `{a,b}` / `{a,c}`
traces, the call raises. -/
theorem claim2_w : isOkE (check_traces_match traceAB traceAC).2 = false :=
  (claim2_thm traceAB traceAC).2 ⟨"b", by decide, rfl⟩

/-- C3: with frames `[{dim=-2,size=5},{dim=-1,size=3}]` and
`max_plate_nesting=2`, `check_site_shape` passes on `log_prob` shape `(5,3)`
and raises an invalid-log_prob-shape error citing expected `(5,3)` versus
actual `(5,4)` on shape `(5,4)`. -/
theorem claim3_thm :
    check_site_shape siteC3ok (.fin 2) = .ok ()
      ∧ check_site_shape siteC3bad (.fin 2) =
          .error (.invalidLogProbShape "x" [5, 3] [5, 4]) :=
  ⟨rfl, rfl⟩

/-- C8: `torch_isnan` on a scalar is IEEE self-inequality and on a tensor is
an any-reduction of elementwise NaN; `torch_isinf` on a scalar is equality
with plus or minus infinity; NaN is NaN, infinity is infinite, and ordinary
finite values are neither. -/
theorem claim8_thm :
    (∀ x, torch_isnan (.scalar x) = !(feq x x))
      ∧ (∀ t, torch_isnan (.tensor t) = t.any (fun e => isnanElem e))
      ∧ (∀ x, torch_isinf (.scalar x) = (feq x .inf || feq x .ninf))
      ∧ torch_isnan (.scalar .nan) = true
      ∧ torch_isinf (.scalar .inf) = true
      ∧ (∀ q : ℚ, torch_isnan (.scalar (.num q)) = false
          ∧ torch_isinf (.scalar (.num q)) = false)
      ∧ ∀ t, (∀ e ∈ t, ∃ q, e = PyFloat.num q) →
          torch_isnan (.tensor t) = false ∧ torch_isinf (.tensor t) = false := by
  refine ⟨fun x => rfl, fun t => rfl, fun x => rfl, rfl, rfl, ?_, ?_⟩
  · intro q
    constructor
    · simp [torch_isnan, feq]
    · rfl
  · intro t hfin
    constructor
    · simp only [torch_isnan, List.any_eq_false]
      intro e he
      obtain ⟨q, rfl⟩ := hfin e he
      simp [isnanElem]
    · simp only [torch_isinf, Bool.or_eq_false_iff]
      constructor <;>
      · simp only [List.any_eq_false]
        intro e he
        obtain ⟨q, rfl⟩ := hfin e he
        simp [feq]

/-- C8 (witness): evaluated on a concrete finite tensor, both predicates are
false. -/
theorem claim8_w :
    torch_isnan (.tensor [PyFloat.num 2]) = false
      ∧ torch_isinf (.tensor [PyFloat.num 2]) = false :=
  claim8_thm.2.2.2.2.2.2 [PyFloat.num 2] (by intro e he; simp at he; exact ⟨2, he⟩)

/-- C10: the optional context manager runs its body exactly once: with
`condition = False` the trace is exactly the bare body (the wrapped manager
is never entered), and with `condition = True` the body runs between the
manager's enter and exit phases; body events are never duplicated or
dropped. -/
theorem claim10_thm {ε : Type} [DecidableEq ε] (cm : ContextManager ε) (b : List ε) :
    optional cm false b = b
      ∧ optional cm true b = withCM cm b
      ∧ (∀ x, x ∉ cm.enter → x ∉ cm.exit →
          (optional cm true b).count x = b.count x)
      ∧ (∀ x, x ∈ cm.enter → x ∉ b → x ∉ optional cm false b) := by
  refine ⟨rfl, rfl, ?_, ?_⟩
  · intro x hen hex
    simp [optional, withCM, List.count_append,
      List.count_eq_zero_of_not_mem hen, List.count_eq_zero_of_not_mem hex]
  · intro x _ hb
    simpa [optional] using hb

/-- C10 (witness): with a concrete manager and body, the body event occurs
exactly as often in the wrapped trace as in the bare body. -/
theorem claim10_w :
    (optional (⟨[0], [1]⟩ : ContextManager Nat) true [2]).count 2 =
      ([2] : List Nat).count 2 :=
  (claim10_thm ⟨[0], [1]⟩ [2]).2.2.1 2 (by decide) (by decide)

theorem cmgmShapeCheck_eq (name : String) (ms gs : List Nat) (mpn : PlateNesting) :
    cmgmShapeCheck name ms gs mpn =
      (if ms = gs then .ok ()
       else if truncActual mpn ms = truncActual mpn gs then .ok ()
       else if (zipLongestRev (truncActual mpn ms) (truncActual mpn gs) 1 1).any
           (fun p => p.1 != p.2) then
         .error (.shapeMismatch name (truncActual mpn ms) (truncActual mpn gs))
       else .ok ()) := rfl

theorem isShapeMismatchErr_shapeCheck_of_trunc_eq (name : String)
    (ms gs : List Nat) (mpn : PlateNesting)
    (ht : truncActual mpn ms = truncActual mpn gs) :
    isShapeMismatchErr (cmgmShapeCheck name ms gs mpn) = false := by
  rw [cmgmShapeCheck_eq]
  by_cases h1 : ms = gs
  · rw [if_pos h1]
    rfl
  · rw [if_neg h1, if_pos ht]
    rfl

/-- C6: in `check_model_guide_match`'s per-site comparison, when both
distributions expose `shape` and the two shapes agree after each is
independently truncated to its rightmost `max_plate_nesting` entries, no
shape-mismatch error is raised. -/
theorem claim6_thm (name : String) (mfn gfn : Dist) (mpn : PlateNesting)
    (ms gs : List Nat) (hm : mfn.shape = some ms) (hg : gfn.shape = some gs)
    (ht : truncActual mpn ms = truncActual mpn gs) :
    isShapeMismatchErr (cmgm_site_check name mfn gfn mpn) = false := by
  have hpart : isShapeMismatchErr (cmgmShapePart name mfn gfn mpn) = false := by
    unfold cmgmShapePart
    rw [hm, hg]
    exact isShapeMismatchErr_shapeCheck_of_trunc_eq name ms gs mpn ht
  rw [cmgm_site_check.eq_def]
  cases mfn.event_dim with
  | none => cases gfn.event_dim <;> exact hpart
  | some em =>
    cases gfn.event_dim with
    | none => exact hpart
    | some eg =>
      dsimp only
      by_cases h : em = eg
      · rw [if_neg (fun hc => hc h)]
        exact hpart
      · rw [if_pos h]
        rfl

/-- C6 (witness): model shape `(4,3)` and guide shape `(3,)` with
`max_plate_nesting=1` both truncate to `(3,)`, so the site check raises no
shape-mismatch error. -/
theorem claim6_w :
    isShapeMismatchErr
      (cmgm_site_check "y" { typeName := "Normal", event_dim := none, shape := some [4, 3] }
        { typeName := "Normal", event_dim := none, shape := some [3] } (.fin 1)) = false :=
  claim6_thm "y" _ _ (.fin 1) [4, 3] [3] rfl rfl (by decide)

theorem isEventDimErr_shapePart (name : String) (mfn gfn : Dist) (mpn : PlateNesting) :
    isEventDimErr (cmgmShapePart name mfn gfn mpn) = false := by
  rw [cmgmShapePart.eq_def]
  cases mfn.shape with
  | none => rfl
  | some ms =>
    cases gfn.shape with
    | none => rfl
    | some gs =>
      dsimp only
      rw [cmgmShapeCheck_eq]
      by_cases h1 : ms = gs
      · rw [if_pos h1]
        rfl
      · rw [if_neg h1]
        by_cases h2 : truncActual mpn ms = truncActual mpn gs
        · rw [if_pos h2]
          rfl
        · rw [if_neg h2]
          by_cases h3 : (zipLongestRev (truncActual mpn ms) (truncActual mpn gs) 1 1).any
              (fun p => p.1 != p.2) = true
          · rw [if_pos h3]
            rfl
          · rw [if_neg h3]
            rfl

/-- C7: in `check_model_guide_match`'s per-site comparison, when both
distributions expose `event_dim`, a fatal event-dim-mismatch error is raised
iff the two values differ: on disagreement the check raises exactly that
error, and on agreement no event-dim-mismatch error can be produced. -/
theorem claim7_thm (name : String) (mfn gfn : Dist) (mpn : PlateNesting)
    (em eg : Nat) (hm : mfn.event_dim = some em) (hg : gfn.event_dim = some eg) :
    (em ≠ eg →
      cmgm_site_check name mfn gfn mpn = .error (.eventDimMismatch name em eg))
    ∧ (em = eg → isEventDimErr (cmgm_site_check name mfn gfn mpn) = false) := by
  rw [cmgm_site_check.eq_def, hm, hg]
  dsimp only
  constructor
  · intro hne
    rw [if_pos hne]
  · intro heq
    rw [if_neg (fun hc => hc heq)]
    exact isEventDimErr_shapePart name mfn gfn mpn

/-- C7 (witness): with `event_dim` 2 versus 1 the site check raises the
event-dim-mismatch error. -/
theorem claim7_w :
    cmgm_site_check "y" { typeName := "Normal", event_dim := some 2, shape := none }
      { typeName := "Normal", event_dim := some 1, shape := none } (.fin 1) =
      .error (.eventDimMismatch "y" 2 1) :=
  (claim7_thm "y" _ _ (.fin 1) 2 1 rfl rfl).1 (by decide)

theorem check_site_shape_eq (site : Node) (mpn : PlateNesting) :
    check_site_shape site mpn =
      (match buildExpected site.name [] site.cond_indep_stack with
       | .error e => .error e
       | .ok es =>
         if natGtPN (expectedToInt es).length mpn then
           .error (.plateStackOverflow site.name (expectedToInt es).length)
         else comparePairs site.name (expectedToInt es)
           (truncActual mpn site.log_prob_shape)) := rfl

/-- C5: whenever the expected shape derived from the `cond_indep_stack` is
longer than `max_plate_nesting`, `check_site_shape` raises a
plate-stack-overflow error naming the site and suggesting the expected
shape's length as the minimum adequate `max_plate_nesting`; otherwise no
plate-stack-overflow error is raised. -/
theorem claim5_thm (site : Node) (mpn : PlateNesting) (es : List (Option Nat))
    (hb : buildExpected site.name [] site.cond_indep_stack = .ok es) :
    (natGtPN es.length mpn = true →
      check_site_shape site mpn = .error (.plateStackOverflow site.name es.length))
    ∧ (natGtPN es.length mpn = false →
      isOverflowErr (check_site_shape site mpn) = false) := by
  have hlen : (expectedToInt es).length = es.length := List.length_map _ _
  rw [check_site_shape_eq, hb]
  dsimp only
  rw [hlen]
  constructor
  · intro hgt
    rw [if_pos hgt]
  · intro hgt
    rw [if_neg (by rw [hgt]; exact Bool.false_ne_true)]
    exact isOverflowErr_comparePairs _ _ _

/-- C5 (witness): a site with a single `dim=-1` frame checked with
`max_plate_nesting=0` raises the overflow error suggesting 1. -/
theorem claim5_w :
    check_site_shape siteOverflow (.fin 0) = .error (.plateStackOverflow "x" 1) :=
  (claim5_thm siteOverflow (.fin 0) [some 3] rfl).1 rfl

/-! ## Dim-collision machinery (C4) -/

theorem buildExpected_cons (sn : String) (acc : List (Option Nat)) (f : Frame)
    (rest : List Frame) :
    buildExpected sn acc (f :: rest) =
      (match f.dim with
       | none => buildExpected sn acc rest
       | some d =>
         if d < 0 then
           if getFR (padTo acc (-d).toNat) (-d).toNat ≠ none then
             .error (.dimCollision sn f.name d)
           else buildExpected sn (setFR (padTo acc (-d).toNat) (-d).toNat f.size) rest
         else .error (.assertFailed sn)) := rfl

theorem assignedDims_cons_none (f : Frame) (rest : List Frame) (hf : f.dim = none) :
    assignedDims (f :: rest) = assignedDims rest := by
  simp [assignedDims, List.filterMap_cons, hf]

theorem assignedDims_cons_some (f : Frame) (rest : List Frame) (d : Int)
    (hf : f.dim = some d) :
    assignedDims (f :: rest) = d :: assignedDims rest := by
  simp [assignedDims, List.filterMap_cons, hf]

theorem le_padTo_length (l : List (Option Nat)) (p : Nat) : p ≤ (padTo l p).length := by
  unfold padTo
  split
  · simp only [List.length_append, List.length_replicate]
    omega
  · omega

theorem getFR_padTo (l : List (Option Nat)) (p q : Nat) :
    getFR (padTo l p) q = getFR l q := by
  unfold padTo getFR
  by_cases hl : l.length < p
  · rw [if_pos hl]
    have hlen : (List.replicate (p - l.length) (none : Option Nat) ++ l).length = p := by
      simp only [List.length_append, List.length_replicate]
      omega
    rw [hlen]
    by_cases hq : q ≤ p
    · rw [if_pos hq]
      by_cases hql : q ≤ l.length
      · rw [if_pos hql, List.getD_eq_getElem?_getD, List.getD_eq_getElem?_getD]
        rw [List.getElem?_append_right (by simp only [List.length_replicate]; omega)]
        have hidx : p - q - (List.replicate (p - l.length) (none : Option Nat)).length
            = l.length - q := by
          simp only [List.length_replicate]
          omega
        rw [hidx]
      · rw [if_neg hql, List.getD_eq_getElem?_getD]
        rw [List.getElem?_append_left (by simp only [List.length_replicate]; omega)]
        rw [List.getElem?_replicate, if_pos (by omega)]
        rfl
    · rw [if_neg hq, if_neg (by omega)]
  · rw [if_neg hl]

theorem getFR_setFR_self (l : List (Option Nat)) (p : Nat) (v : Nat)
    (hp1 : 1 ≤ p) (hpl : p ≤ l.length) :
    getFR (setFR l p v) p = some v := by
  unfold setFR getFR
  rw [List.length_set, if_pos hpl, List.getD_eq_getElem?_getD]
  rw [List.getElem?_set_self (by omega)]
  rfl

theorem getFR_setFR_ne (l : List (Option Nat)) (p q : Nat) (v : Nat)
    (hp1 : 1 ≤ p) (hpl : p ≤ l.length) (hne : q ≠ p) :
    getFR (setFR l p v) q = getFR l q := by
  unfold setFR getFR
  rw [List.length_set]
  by_cases hq : q ≤ l.length
  · rw [if_pos hq, if_pos hq, List.getD_eq_getElem?_getD, List.getD_eq_getElem?_getD]
    rw [List.getElem?_set_ne (by omega)]
  · rw [if_neg hq, if_neg hq]

theorem buildExpected_ok_spec (sn : String) :
    ∀ (fs : List Frame) (acc es : List (Option Nat)),
      buildExpected sn acc fs = .ok es →
      (assignedDims fs).Nodup ∧
        ∀ d ∈ assignedDims fs, d < 0 ∧ getFR acc (-d).toNat = none := by
  intro fs
  induction fs with
  | nil =>
    intro acc es _
    refine ⟨by simp [assignedDims], ?_⟩
    intro d hd
    simp [assignedDims] at hd
  | cons f rest ih =>
    intro acc es hb
    rw [buildExpected_cons] at hb
    cases hf : f.dim with
    | none =>
      rw [hf] at hb
      dsimp only at hb
      obtain ⟨hnd, hrest⟩ := ih acc es hb
      rw [assignedDims_cons_none f rest hf]
      exact ⟨hnd, hrest⟩
    | some d =>
      rw [hf] at hb
      dsimp only at hb
      by_cases hdneg : d < 0
      · rw [if_pos hdneg] at hb
        by_cases hcol : getFR (padTo acc (-d).toNat) (-d).toNat ≠ none
        · rw [if_pos hcol] at hb
          exact absurd hb (fun h => Except.noConfusion h)
        · rw [if_neg hcol] at hb
          have hcol' : getFR (padTo acc (-d).toNat) (-d).toNat = none :=
            not_not.mp hcol
          obtain ⟨hnd, hrest⟩ := ih _ es hb
          have hp1 : 1 ≤ (-d).toNat := by omega
          have hplen : (-d).toNat ≤ (padTo acc (-d).toNat).length :=
            le_padTo_length acc (-d).toNat
          rw [assignedDims_cons_some f rest d hf]
          constructor
          · rw [List.nodup_cons]
            refine ⟨?_, hnd⟩
            intro hmem
            obtain ⟨_, hget⟩ := hrest d hmem
            rw [getFR_setFR_self _ _ _ hp1 hplen] at hget
            cases hget
          · intro d' hd'
            rcases List.mem_cons.mp hd' with rfl | hmem
            · refine ⟨hdneg, ?_⟩
              rw [← getFR_padTo acc (-d').toNat (-d').toNat]
              exact hcol'
            · obtain ⟨hd'neg, hget⟩ := hrest d' hmem
              have hpne : (-d').toNat ≠ (-d).toNat := by
                intro he
                rw [he, getFR_setFR_self _ _ _ hp1 hplen] at hget
                cases hget
              rw [getFR_setFR_ne _ _ _ _ hp1 hplen hpne] at hget
              refine ⟨hd'neg, ?_⟩
              rw [← getFR_padTo acc (-d).toNat (-d').toNat]
              exact hget
      · rw [if_neg hdneg] at hb
        exact absurd hb (fun h => Except.noConfusion h)

theorem buildExpected_error_dimCollision (sn : String) :
    ∀ (fs : List Frame) (acc : List (Option Nat)) (e : PyroErr),
      buildExpected sn acc fs = .error e → negDims fs = true →
      ∃ fn fd, e = .dimCollision sn fn fd := by
  intro fs
  induction fs with
  | nil =>
    intro acc e hb _
    exact absurd hb (fun h => Except.noConfusion h)
  | cons f rest ih =>
    intro acc e hb hneg
    rw [negDims, List.all_cons, Bool.and_eq_true] at hneg
    obtain ⟨hnegf, hnegrest⟩ := hneg
    rw [buildExpected_cons] at hb
    cases hf : f.dim with
    | none =>
      rw [hf] at hb
      dsimp only at hb
      exact ih acc e hb hnegrest
    | some d =>
      rw [hf] at hb
      dsimp only at hb
      rw [hf] at hnegf
      dsimp only at hnegf
      have hdneg : d < 0 := of_decide_eq_true hnegf
      rw [if_pos hdneg] at hb
      by_cases hcol : getFR (padTo acc (-d).toNat) (-d).toNat ≠ none
      · rw [if_pos hcol] at hb
        injection hb with h
        exact ⟨f.name, d, h.symm⟩
      · rw [if_neg hcol] at hb
        exact ih _ e hb hnegrest

/-- C4: for every site whose `cond_indep_stack` contains two frames with
assigned (negative) dims claiming the same dimension position,
`check_site_shape` raises a dim-collision error naming the site. -/
theorem claim4_thm (site : Node) (mpn : PlateNesting)
    (hneg : negDims site.cond_indep_stack = true)
    (hdup : ¬ (assignedDims site.cond_indep_stack).Nodup) :
    isDimCollisionAt site.name (check_site_shape site mpn) = true := by
  cases hb : buildExpected site.name [] site.cond_indep_stack with
  | ok es =>
    exact absurd
      (buildExpected_ok_spec site.name site.cond_indep_stack [] es hb).1 hdup
  | error e =>
    obtain ⟨fn, fd, rfl⟩ :=
      buildExpected_error_dimCollision site.name site.cond_indep_stack [] e hb hneg
    rw [check_site_shape_eq, hb]
    simp [isDimCollisionAt]

/-- C4 (witness): the site with two frames both claiming `dim=-1` produces a
dim-collision error naming the site. -/
theorem claim4_w : isDimCollisionAt "x" (check_site_shape siteCollide (.fin 2)) = true :=
  claim4_thm siteCollide (.fin 2) (by decide) (by decide)

/-! ## Enumeration-ordering machinery (C9) -/

theorem insertSorted_ne_nil (a : String) (l : List String) : insertSorted a l ≠ [] := by
  cases l with
  | nil => simp [insertSorted]
  | cons b rest =>
    unfold insertSorted
    split <;> simp

theorem sortStr_eq_nil_iff (l : List String) : sortStr l = [] ↔ l = [] := by
  cases l with
  | nil => simp [sortStr]
  | cons a rest =>
    unfold sortStr
    constructor
    · intro h
      exact absurd h (insertSorted_ne_nil a (sortStr rest))
    · intro h
      cases h

theorem stepWarnings_eq (role : String) (st : TEState) (name : String) (s : Node) :
    stepWarnings role st name s =
      st.enumCtxs.filterMap (fun p =>
        if ssubF (siteContext s) p.1 then
          if (sortStr (p.2.filter (fun n =>
              !(_are_independent (siteIrangeCounter s) (countersOf st n))))).isEmpty then
            none
          else
            some { role := role, site := name,
                   shouldPrecede := sortStr (p.2.filter (fun n =>
                     !(_are_independent (siteIrangeCounter s) (countersOf st n)))),
                   plates := sortStr ((diffF p.1 (siteContext s)).map (fun f => f.name)) }
        else none) := rfl

/-- C9: at a sample site, `check_traceenum_requirements`'s per-site step
warns exactly when some previously-recorded enumerated context is a strict
superset of the site's vectorized-frame context and records an enumerated
site whose non-vectorized counter snapshot is not independent of the current
site's snapshot; in particular, an enumerated guide site `e` under context
`{plateA}` followed by a site `f` under the empty context (same counters)
yields exactly the warning that `f` should have preceded `e`. -/
theorem claim9_thm :
    (∀ (role : String) (es : List String) (st : TEState) (name : String) (s : Node),
        s.type = "sample" →
        ((teStep role es st name s).2 ≠ [] ↔
          ∃ p ∈ st.enumCtxs, ssubF (siteContext s) p.1 = true ∧
            ∃ n ∈ p.2,
              _are_independent (siteIrangeCounter s) (countersOf st n) = false))
      ∧ check_traceenum_requirements emptyTrace guideEF =
          [{ role := "guide", site := "f", shouldPrecede := ["e"], plates := ["plateA"] }] := by
  constructor
  · intro role es st name s hs
    have hstep : (teStep role es st name s).2 = stepWarnings role st name s := by
      unfold teStep
      rw [if_pos (by simp [hs])]
    rw [hstep, stepWarnings_eq, Ne, List.filterMap_eq_nil_iff]
    push_neg
    constructor
    · rintro ⟨p, hp, hfp⟩
      by_cases hsub : ssubF (siteContext s) p.1 = true
      · refine ⟨p, hp, hsub, ?_⟩
        rw [if_pos hsub] at hfp
        by_cases hemp : (sortStr (p.2.filter (fun n =>
            !(_are_independent (siteIrangeCounter s) (countersOf st n))))).isEmpty = true
        · rw [if_pos hemp] at hfp
          exact absurd rfl hfp
        · have hne : p.2.filter (fun n =>
              !(_are_independent (siteIrangeCounter s) (countersOf st n))) ≠ [] := by
            intro h0
            apply hemp
            rw [h0]
            rfl
          obtain ⟨n, hmem⟩ := List.exists_mem_of_ne_nil _ hne
          have hn := List.mem_filter.mp hmem
          exact ⟨n, hn.1, by simpa using hn.2⟩
      · rw [if_neg hsub] at hfp
        exact absurd rfl hfp
    · rintro ⟨p, hp, hsub, n, hn, hindep⟩
      refine ⟨p, hp, ?_⟩
      rw [if_pos hsub]
      have hmem : n ∈ p.2.filter (fun n =>
          !(_are_independent (siteIrangeCounter s) (countersOf st n))) :=
        List.mem_filter.mpr ⟨hn, by rw [hindep]; rfl⟩
      have hnemp : ¬ ((sortStr (p.2.filter (fun n =>
          !(_are_independent (siteIrangeCounter s) (countersOf st n))))).isEmpty = true) := by
        intro hemp
        have h1 := List.isEmpty_iff.mp hemp
        have h2 := (sortStr_eq_nil_iff _).mp h1
        rw [h2] at hmem
        simp at hmem
      rw [if_neg hnemp]
      simp
  · rfl

/-- C9 (witness): at the state reached after the enumerated site `e` (under
`{plateA}`), the step for the sample site `f` (empty context, same counters)
emits a warning. -/
theorem claim9_w :
    (teStep "guide" ["e"]
        { counters := [("e", [])], enumCtxs := [([framePlateA], ["e"])] }
        "f" baseNode).2 ≠ [] :=
  (claim9_thm.1 "guide" ["e"]
      { counters := [("e", [])], enumCtxs := [([framePlateA], ["e"])] }
      "f" baseNode rfl).mpr
    ⟨([framePlateA], ["e"]), by simp, by decide, "e", by simp, by decide⟩

end PyroUtil
